import Mathlib

/-!
Verification of the SENTINEL repository's frontend rendering and
orchestration-core contracts against its specification.

The vanilla-JS frontend (`SentinelApp` in the unnamed frontend script) and
the React frontend (`AnalysisPage`, `EducationPage`) are embedded shallowly:
their pure helper functions become Lean functions on `String`, their event
handlers become explicit state-transition functions, and JavaScript property
access on response objects is modelled by an association-list JSON value with
JavaScript's `undefined` fallback.  The backend core (Risk Aggregator,
Conversation Store) is not present among the repository's source files, so it
is modelled from the specification where a claim needs it; such definitions
say so in their doc comments.
-/

/-- The names under which a plain JavaScript object literal inherits a
member from `Object.prototype`.  A property read `obj[key]` that misses the
literal's own keys continues along the prototype chain, so at these keys it
yields the inherited member (a built-in function, or the prototype object
itself for `__proto__`) instead of `undefined` — and every one of these
members is truthy, so an `obj[key] || fallback` expression returns it. -/
def objectProtoKeys : List String :=
  ["constructor", "hasOwnProperty", "isPrototypeOf", "propertyIsEnumerable",
   "toLocaleString", "toString", "valueOf",
   "__defineGetter__", "__defineSetter__", "__lookupGetter__",
   "__lookupSetter__", "__proto__"]

/-- The value a frontend helper expression of the shape
`tableLiteral[level] || fallback` evaluates to: one of the literal's own
string values, one of its own numeric values, the fallback — or, at a key
naming an inherited `Object.prototype` member, that inherited member. -/
inductive JsOut where
  | str (s : String)
  | num (n : Nat)
  | protoMember (name : String)
deriving DecidableEq, Repr

/-- JavaScript string coercion of a helper result, as applied by template
literals: the inherited members print as native-code function sources
(`__proto__`, an accessor returning the prototype object, prints as a plain
object). -/
def jsOutCoerce : JsOut → String
  | .str s => s
  | .num n => toString n
  | .protoMember name =>
    if name = "__proto__" then "[object Object]"
    else "function " ++ name ++ "() \x7b [native code] \x7d"

namespace SentinelApp

/-- The function `SentinelApp.formatRiskLevel` from the vanilla-JS frontend:
`levels[level] || level` over the fixed level-to-label object literal.  A
miss on the four own keys falls through to the prototype chain before the
`||` fallback can return the input itself. -/
def formatRiskLevel (level : String) : JsOut :=
  if level = "low" then .str "Low Risk"
  else if level = "medium" then .str "Medium Risk"
  else if level = "high" then .str "High Risk"
  else if level = "critical" then .str "Critical Risk"
  else if level ∈ objectProtoKeys then .protoMember level
  else .str level

/-- The function `SentinelApp.getRiskPercentage`:
`percentages[level] || 50` over the fixed level-to-percentage object
literal, with the same prototype-chain behaviour before the 50 fallback. -/
def getRiskPercentage (level : String) : JsOut :=
  if level = "low" then .num 25
  else if level = "medium" then .num 60
  else if level = "high" then .num 85
  else if level = "critical" then .num 100
  else if level ∈ objectProtoKeys then .protoMember level
  else .num 50

/-- The function `SentinelApp.getRiskDescription`:
`descriptions[level] || fallbackSentence` over the fixed object literal,
with the same prototype-chain behaviour before the fallback sentence. -/
def getRiskDescription (level : String) : JsOut :=
  if level = "low" then .str "Minimal risk indicators detected. Appears legitimate."
  else if level = "medium" then .str "Multiple suspicious indicators detected. Proceed with caution."
  else if level = "high" then .str "High likelihood of malicious intent. Avoid interaction."
  else if level = "critical" then .str "Confirmed threat. Do not interact under any circumstances."
  else if level ∈ objectProtoKeys then .protoMember level
  else .str "Risk assessment in progress."

/-- The function `SentinelApp.getStatusBadge`: `badges[status] || info` over
the five-entry status-to-badge-variant object literal, with the same
prototype-chain behaviour before the `info` fallback. -/
def getStatusBadge (status : String) : JsOut :=
  if status = "clean" then .str "low"
  else if status = "suspicious" then .str "medium"
  else if status = "malicious" then .str "high"
  else if status = "recent" then .str "medium"
  else if status = "complete" then .str "info"
  else if status ∈ objectProtoKeys then .protoMember status
  else .str "info"

/-- The full CSS class string the vanilla frontend writes for one evidence
row's status badge: the template literal coerces the looked-up badge
variant to text. -/
def evidenceBadgeCss (status : String) : String :=
  "badge badge-" ++ jsOutCoerce (getStatusBadge status)

end SentinelApp

namespace AnalysisPage

/-- The function `AnalysisPage.formatRiskLevel` from the React frontend, an
independent copy of `levels[level] || level` with the same prototype-chain
behaviour. -/
def formatRiskLevel (level : String) : JsOut :=
  if level = "low" then .str "Low Risk"
  else if level = "medium" then .str "Medium Risk"
  else if level = "high" then .str "High Risk"
  else if level = "critical" then .str "Critical Risk"
  else if level ∈ objectProtoKeys then .protoMember level
  else .str level

/-- The function `AnalysisPage.getRiskPercentage` from the React frontend,
an independent copy of `percentages[level] || 50`. -/
def getRiskPercentage (level : String) : JsOut :=
  if level = "low" then .num 25
  else if level = "medium" then .num 60
  else if level = "high" then .num 85
  else if level = "critical" then .num 100
  else if level ∈ objectProtoKeys then .protoMember level
  else .num 50

/-- The function `AnalysisPage.getRiskDescription` from the React frontend,
an independent copy of `descriptions[level] || fallbackSentence`. -/
def getRiskDescription (level : String) : JsOut :=
  if level = "low" then .str "Minimal risk indicators detected. Appears legitimate."
  else if level = "medium" then .str "Multiple suspicious indicators detected. Proceed with caution."
  else if level = "high" then .str "High likelihood of malicious intent. Avoid interaction."
  else if level = "critical" then .str "Confirmed threat. Do not interact under any circumstances."
  else if level ∈ objectProtoKeys then .protoMember level
  else .str "Risk assessment in progress."

/-- The evidence status badge class written inline in the React JSX:
the ternary `item.status === clean ? low : medium`. -/
def evidenceBadgeCss (status : String) : String :=
  "badge badge-" ++ (if status = "clean" then "low" else "medium")

end AnalysisPage

/-- A JavaScript value as the frontends consume it from a parsed JSON
response: strings, numbers, arrays, objects (association lists of fields),
and `undefined`, which is what property access yields for an absent key. -/
inductive JsVal where
  | str (s : String)
  | num (n : Int)
  | arr (xs : List JsVal)
  | obj (fields : List (String × JsVal))
  | undefined

/-- JavaScript property access `o[k]`: the field's value when the object has
the key, `undefined` otherwise (never an error). -/
def jsGet : JsVal → String → JsVal
  | .obj fields, k =>
    match fields.find? (fun p => p.1 = k) with
    | some p => p.2
    | none => .undefined
  | _, _ => .undefined

/-- JavaScript string coercion as applied by template literals and string
concatenation: `undefined` renders as the text "undefined". -/
def jsToString : JsVal → String
  | .str s => s
  | .num n => toString n
  | .arr _ => ""
  | .obj _ => "[object Object]"
  | .undefined => "undefined"

namespace SentinelApp

/-- The function `formatRiskLevel` as actually invoked on `result.riskLevel`, which is a
JavaScript value: a property key is coerced to a string for the table lookup,
and on a miss the argument itself is returned. -/
def formatRiskLevelJs (v : JsVal) : JsVal :=
  let k := jsToString v
  if k = "low" then .str "Low Risk"
  else if k = "medium" then .str "Medium Risk"
  else if k = "high" then .str "High Risk"
  else if k = "critical" then .str "Critical Risk"
  else v

/-- The function `getRiskPercentage` as invoked on a JavaScript value by
`displayResults`: the property key is coerced to a string for the table
lookup, with 50 for a miss. -/
def getRiskPercentageJs (v : JsVal) : Nat :=
  let k := jsToString v
  if k = "low" then 25
  else if k = "medium" then 60
  else if k = "high" then 85
  else if k = "critical" then 100
  else 50

/-- The function `getRiskDescription` as invoked on a JavaScript value by
`displayResults` (the fallback arm yields the in-progress sentence). -/
def getRiskDescriptionJs (v : JsVal) : String :=
  let k := jsToString v
  if k = "low" then "Minimal risk indicators detected. Appears legitimate."
  else if k = "medium" then "Multiple suspicious indicators detected. Proceed with caution."
  else if k = "high" then "High likelihood of malicious intent. Avoid interaction."
  else if k = "critical" then "Confirmed threat. Do not interact under any circumstances."
  else "Risk assessment in progress."

/-- The risk-related DOM fields `displayResults` writes for one analysis
result. -/
structure RenderedRisk where
  badgeCss : String
  badgeText : String
  fillWidthPct : Nat
  description : String
deriving DecidableEq, Repr

/-- The risk portion of `SentinelApp.displayResults`: every read of the
verdict's risk level goes through the property `riskLevel` of the response
object. -/
def renderRisk (result : JsVal) : RenderedRisk :=
  let lvl := jsGet result "riskLevel"
  { badgeCss := "badge badge-" ++ jsToString lvl
    badgeText := jsToString (formatRiskLevelJs lvl)
    fillWidthPct := getRiskPercentageJs lvl
    description := getRiskDescriptionJs lvl }

end SentinelApp

/-- JavaScript's `value.trim()`: drop leading and trailing whitespace.
Stated over the string's character list so that it evaluates inside the
kernel. -/
def jsTrim (s : String) : String :=
  String.mk (((s.data.dropWhile Char.isWhitespace).reverse.dropWhile
    Char.isWhitespace).reverse)

/-- One network attempt as the frontends observe it: the promise rejects
with some internal detail, or a response arrives with an ok flag, an
optional `error` field in its JSON body, and the parsed body. -/
inductive FetchOutcome where
  | rejected (detail : String)
  | response (ok : Bool) (errField : Option String) (body : JsVal)

/-- A request-level analysis failure: the request rejected or the response
status was not ok. -/
def FetchOutcome.isFailure : FetchOutcome → Prop
  | .rejected _ => True
  | .response ok _ _ => ok = false

instance : DecidablePred FetchOutcome.isFailure := fun o => by
  cases o <;> simp [FetchOutcome.isFailure] <;> infer_instance

namespace SentinelApp

/-- What the vanilla frontend does to the page in response to one user
action: pop an alert, or fill in the results section. -/
inductive UiAction where
  | alerted (msg : String)
  | displayed (result : JsVal)

/-- The method `SentinelApp.analyzeInput`: throws the body's `error` field (or a
default) on a non-ok response, returns the parsed body on success. -/
def analyzeInput (outcome : FetchOutcome) : Except String JsVal :=
  match outcome with
  | .rejected d => .error d
  | .response ok errField body =>
    if ok then .ok body else .error (errField.getD "API request failed")

/-- The method `SentinelApp.analyzeImage`: the image-upload variant with its own
default error text. -/
def analyzeImage (outcome : FetchOutcome) : Except String JsVal :=
  match outcome with
  | .rejected d => .error d
  | .response ok errField body =>
    if ok then .ok body else .error (errField.getD "Image upload failed")

/-- The method `SentinelApp.handleAnalyze`: on blank (trimmed-empty) input shows the
prompt message and sends nothing; otherwise performs the request and either
displays the result or shows the fixed generic failure text.  The Bool is
whether the network request was issued. -/
def handleAnalyze (value : String) (outcome : FetchOutcome) : UiAction × Bool :=
  if jsTrim value = "" then
    (.alerted "Please enter a URL, message, or phone number", false)
  else
    match analyzeInput outcome with
    | .error _ => (.alerted "Analysis failed. Please try again.", true)
    | .ok r => (.displayed r, true)

/-- The method `SentinelApp.handleImageUpload` once a file is chosen: displays the
result or shows the fixed generic image-failure text. -/
def handleImageUpload (outcome : FetchOutcome) : UiAction :=
  match analyzeImage outcome with
  | .error _ => .alerted "Image analysis failed. Please try again."
  | .ok r => .displayed r

end SentinelApp

namespace AnalysisPage

/-- The React `AnalysisPage` component state touched by `handleAnalyze`. -/
structure PageState where
  input : String
  loading : Bool
  result : Option JsVal
  error : Option String

/-- The handler `AnalysisPage.handleAnalyze` as a state transition: blank input only
sets the prompt message and returns early (no fetch); otherwise the fetch
runs and on any failure the error state becomes the fixed generic text.
The Bool is whether the fetch was issued. -/
def handleAnalyze (st : PageState) (outcome : FetchOutcome) : PageState × Bool :=
  if jsTrim st.input = "" then
    ({ st with error := some "Please enter a URL, message, or phone number" }, false)
  else
    match outcome with
    | .rejected _ =>
      ({ st with error := some "Analysis failed. Please try again.", loading := false }, true)
    | .response ok _ body =>
      if ok then
        ({ st with error := none, result := some body, loading := false }, true)
      else
        ({ st with error := some "Analysis failed. Please try again.", loading := false }, true)

/-- The handler `AnalysisPage.handleImageUpload` once a file is chosen. -/
def handleImageUpload (st : PageState) (outcome : FetchOutcome) : PageState :=
  match outcome with
  | .rejected _ =>
    { st with error := some "Image analysis failed. Please try again.", loading := false }
  | .response ok _ body =>
    if ok then { st with error := none, result := some body, loading := false }
    else { st with error := some "Image analysis failed. Please try again.", loading := false }

end AnalysisPage

namespace EducationPage

/-- The React `EducationPage` component state touched by `handleNext`. -/
structure EduState where
  questions : List String
  currentIndex : Nat
  answer : String
  feedback : Option String
deriving DecidableEq, Repr

/-- The handler `EducationPage.handleNext`: clears the answer and feedback and advances
the index by one modulo the number of questions. -/
def handleNext (st : EduState) : EduState :=
  { st with
    answer := ""
    feedback := none
    currentIndex := (st.currentIndex + 1) % st.questions.length }

end EducationPage

/-- The ordered risk levels of the verdict data model. -/
inductive RiskLevel where
  | low
  | medium
  | high
  | critical
deriving DecidableEq, Repr

/-- The status tag of one normalized Evidence item. -/
inductive EvStatus where
  | clean
  | suspicious
  | malicious
  | inconclusive
deriving DecidableEq, Repr

/-- One normalized Evidence item: source identifier, malice score in
[0,100], source-declared confidence in [0,100], static reliability weight,
free-text detail and a status tag. -/
structure Evidence where
  source : String
  score : Rat
  confidence : Rat
  weight : Rat
  detail : String
  status : EvStatus
deriving DecidableEq, Repr

/-- The combined risk verdict the Aggregator produces. -/
structure RiskVerdict where
  riskLevel : RiskLevel
  confidence : Rat
  summary : String
  reasoning : List String
  evidence : List Evidence
  recommendations : List String
  uncertainties : List String
deriving DecidableEq, Repr

/-- Clamp a score or confidence into the data model's [0,100] range. -/
def clamp100 (x : Rat) : Rat := max 0 (min 100 x)

/-- Modelled from the spec: the canned risk-level-to-guidance mapping of the
Risk Aggregator (the backend `agent_orchestrator.py` is not among the files
under src/). -/
def recommendationsFor : RiskLevel → List String
  | .low => ["Standard caution advised", "Verify source independently"]
  | .medium => ["Proceed with caution", "Verify through official channels before sharing information"]
  | .high => ["Avoid interaction", "Do not share personal information"]
  | .critical => ["Do not interact", "Report to authorities"]

/-- The uncertainty note for an empty evidence set. -/
def noSignalNote : String := "No independent signal was available"

/-- Modelled from the spec: the verdict returned when the evidence set is
empty (step 1 of the aggregation algorithm in section 4.2). -/
def emptyEvidenceVerdict : RiskVerdict :=
  { riskLevel := .medium
    confidence := 0
    summary := "No independent signal was available to assess this input"
    reasoning := []
    evidence := []
    recommendations := recommendationsFor .medium
    uncertainties := [noSignalNote] }

/-- The aggregation weight of one Evidence item:
reliability weight times (source confidence / 100). -/
def evCombinedWeight (e : Evidence) : Rat :=
  e.weight * (clamp100 e.confidence / 100)

/-- The fixed thresholds mapping a weighted malice score to a risk level. -/
def levelForScore (s : Rat) : RiskLevel :=
  if s < 30 then .low
  else if s < 60 then .medium
  else if s < 85 then .high
  else .critical

/-- Insertion into a list sorted by a rational key, descending. -/
def insertByKeyDesc (key : Evidence → Rat) (e : Evidence) :
    List Evidence → List Evidence
  | [] => [e]
  | x :: xs =>
    if key x < key e then e :: x :: xs
    else x :: insertByKeyDesc key e xs

/-- Sort evidence by a rational key, descending. -/
def sortByKeyDesc (key : Evidence → Rat) : List Evidence → List Evidence
  | [] => []
  | x :: xs => insertByKeyDesc key x (sortByKeyDesc key xs)

/-- One reasoning sentence per Evidence item. -/
def reasoningSentence (e : Evidence) : String :=
  e.source ++ " reported status with score contribution: " ++ e.detail

/-- Modelled from the spec: `Aggregate` of the Risk Aggregator (section 4.2;
the backend `agent_orchestrator.py` is not among the files under src/).
Steps: empty evidence yields the fixed medium/0 verdict; otherwise a
weighted malice average is thresholded into a level, confidence is the
weighted average of source confidences reduced by a disagreement penalty
(the spec leaves the exact penalty formula open, a variance-proportional
penalty is used), reasoning is ordered by descending weight times
confidence, and uncertainty notes cover the single-source and
high-disagreement cases. -/
def Aggregate (evidence : List Evidence) : RiskVerdict :=
  match evidence with
  | [] => emptyEvidenceVerdict
  | es =>
    let wsum := (es.map evCombinedWeight).foldl (· + ·) 0
    if wsum ≤ 0 then emptyEvidenceVerdict
    else
      let malice :=
        ((es.map (fun e => clamp100 e.score * evCombinedWeight e)).foldl (· + ·) 0) / wsum
      let level := levelForScore malice
      let confW :=
        ((es.map (fun e => clamp100 e.confidence * evCombinedWeight e)).foldl (· + ·) 0) / wsum
      let n : Rat := (es.length : Rat)
      let mean := ((es.map (fun e => clamp100 e.score)).foldl (· + ·) 0) / n
      let variance :=
        ((es.map (fun e => (clamp100 e.score - mean) ^ 2)).foldl (· + ·) 0) / n
      let penalty := variance / 100
      let conf := clamp100 (confW - penalty)
      let ordered := sortByKeyDesc (fun e => e.weight * clamp100 e.confidence) es
      let statuses := es.map Evidence.status
      let conflicted := statuses.any (fun s => statuses.any (fun t => s ≠ t))
      let reasoning :=
        ordered.map reasoningSentence
          ++ (if conflicted then ["Conflicting evidence was combined by reliability-weighted averaging"] else [])
      let uncertainties :=
        (if es.length < 2 then ["Only one independent source responded"] else [])
          ++ (if penalty > 10 then ["High disagreement among sources reduced confidence"] else [])
      { riskLevel := level
        confidence := conf
        summary := "Combined assessment from " ++ toString es.length ++ " source(s)"
        reasoning := reasoning
        evidence := es
        recommendations := recommendationsFor level
        uncertainties := uncertainties }

/-- One (utterance, verdict-or-reply) exchange of a conversation session. -/
structure Exchange where
  utterance : String
  reply : String
deriving DecidableEq, Repr

/-- Modelled from the spec: a ConversationSession of the Conversation Store
(the backend `services/twilio_client.py` is not among the files under
src/): bounded exchange history, last-activity timestamp, language. -/
structure ConversationSession where
  history : List Exchange
  lastActivity : Nat
  language : String
deriving DecidableEq, Repr

/-- The history bound of a session: the last 5 exchanges are kept. -/
def maxHistory : Nat := 5

/-- Keep only the newest `maxHistory` entries: drop from the front (the
oldest end) whatever exceeds the bound. -/
def trimHistory (h : List Exchange) : List Exchange :=
  h.drop (h.length - maxHistory)

/-- The Conversation Store: sessions keyed by identity. -/
abbrev ConversationStore := List (String × ConversationSession)

/-- Look up the session recorded for an identity, if any. -/
def lookupSession (store : ConversationStore) (identity : String) :
    Option ConversationSession :=
  (store.find? (fun p => p.1 = identity)).map (fun p => p.2)

/-- Modelled from the spec: `Upsert` of the Conversation Store (section
4.3): create a session on first use, otherwise append the exchange, trim
the history to the newest 5, and refresh the last-activity timestamp. -/
def Upsert (store : ConversationStore) (identity : String) (ex : Exchange)
    (now : Nat) (language : String) : ConversationStore :=
  match lookupSession store identity with
  | none => (identity, { history := [ex], lastActivity := now, language := language }) :: store
  | some _ =>
    store.map (fun p =>
      if p.1 = identity then
        (p.1, { history := trimHistory (p.2.history ++ [ex])
                lastActivity := now
                language := p.2.language })
      else p)

/-- One recorded `Upsert` call. -/
structure UpsertOp where
  identity : String
  exchange : Exchange
  now : Nat
  language : String
deriving DecidableEq, Repr

/-- Apply a sequence of `Upsert` calls to a store. -/
def applyOps (store : ConversationStore) (ops : List UpsertOp) : ConversationStore :=
  ops.foldl (fun st op => Upsert st op.identity op.exchange op.now op.language) store

/-- The history an identity's session holds after a sequence of `Upsert`
calls starting from the empty store. -/
def historyAfter (ops : List UpsertOp) (identity : String) : List Exchange :=
  match lookupSession (applyOps [] ops) identity with
  | none => []
  | some sess => sess.history

/-- The rank of a risk level in the spec's order low < medium < high <
critical; `none` for a string outside the four levels. -/
def riskRank (level : String) : Option Nat :=
  if level = "low" then some 0
  else if level = "medium" then some 1
  else if level = "high" then some 2
  else if level = "critical" then some 3
  else none

/-- The verdict JSON shape documented by the repository's README for
`POST /api/analyze`: the risk level travels under the key `risk_level`. -/
def documentedVerdict : JsVal :=
  .obj [("type", .str "url"),
        ("risk_level", .str "high"),
        ("confidence", .num 88),
        ("summary", .str "Phishing attempt detected")]

/-- C1: the claim says the presentation layer reads the risk level under the
key `risk_level`.  The code reads `result.riskLevel` instead: on the verdict
JSON documented by the repository's own README (risk level `high` under
`risk_level`), the rendering yields the unknown-level fallbacks — badge class
`badge badge-undefined`, badge text `undefined`, indicator width 50 and the
in-progress description — even though the documented key is present. -/
theorem renderRisk_misses_documented_risk_level :
    jsGet documentedVerdict "risk_level" = JsVal.str "high"
    ∧ jsGet documentedVerdict "riskLevel" = JsVal.undefined
    ∧ SentinelApp.renderRisk documentedVerdict =
        { badgeCss := "badge badge-undefined"
          badgeText := "undefined"
          fillWidthPct := 50
          description := "Risk assessment in progress." } :=
  ⟨rfl, rfl, rfl⟩

/-- C2: both frontends map each of the four risk levels through the fixed
enumerated table to its display label and numeric indicator percentage:
low ↦ (Low Risk, 25), medium ↦ (Medium Risk, 60), high ↦ (High Risk, 85),
critical ↦ (Critical Risk, 100). -/
theorem riskLevel_rendering_table_fixed :
    (SentinelApp.formatRiskLevel "low" = .str "Low Risk"
      ∧ SentinelApp.formatRiskLevel "medium" = .str "Medium Risk"
      ∧ SentinelApp.formatRiskLevel "high" = .str "High Risk"
      ∧ SentinelApp.formatRiskLevel "critical" = .str "Critical Risk")
    ∧ (SentinelApp.getRiskPercentage "low" = .num 25
      ∧ SentinelApp.getRiskPercentage "medium" = .num 60
      ∧ SentinelApp.getRiskPercentage "high" = .num 85
      ∧ SentinelApp.getRiskPercentage "critical" = .num 100)
    ∧ (AnalysisPage.formatRiskLevel "low" = .str "Low Risk"
      ∧ AnalysisPage.formatRiskLevel "medium" = .str "Medium Risk"
      ∧ AnalysisPage.formatRiskLevel "high" = .str "High Risk"
      ∧ AnalysisPage.formatRiskLevel "critical" = .str "Critical Risk")
    ∧ (AnalysisPage.getRiskPercentage "low" = .num 25
      ∧ AnalysisPage.getRiskPercentage "medium" = .num 60
      ∧ AnalysisPage.getRiskPercentage "high" = .num 85
      ∧ AnalysisPage.getRiskPercentage "critical" = .num 100) := by
  decide

/-- C3 counterexample: the two frontends do not assign the same evidence
status badge class for status `malicious`: the vanilla frontend writes
`badge badge-high` while the React page writes `badge badge-medium`. -/
theorem evidenceBadge_malicious_mismatch :
    SentinelApp.evidenceBadgeCss "malicious" = "badge badge-high"
    ∧ AnalysisPage.evidenceBadgeCss "malicious" = "badge badge-medium"
    ∧ SentinelApp.evidenceBadgeCss "malicious" ≠ AnalysisPage.evidenceBadgeCss "malicious" := by
  decide

/-- C3 amended: the two frontends agree on the risk badge label, indicator
percentage and risk description for every level string, and on the evidence
status badge class for the statuses `clean`, `suspicious` and `recent`; for
status `malicious` they assign different badge classes (the
counterexample), so they do not render every analysis result
equivalently. -/
theorem frontends_render_agree_amended :
    ∀ (level status : String),
      SentinelApp.formatRiskLevel level = AnalysisPage.formatRiskLevel level
      ∧ SentinelApp.getRiskPercentage level = AnalysisPage.getRiskPercentage level
      ∧ SentinelApp.getRiskDescription level = AnalysisPage.getRiskDescription level
      ∧ ((status = "clean" ∨ status = "suspicious" ∨ status = "recent") →
          SentinelApp.evidenceBadgeCss status = AnalysisPage.evidenceBadgeCss status) := by
  intro level status
  refine ⟨rfl, rfl, rfl, ?_⟩
  rintro (h | h | h) <;> subst h <;> decide

/-- Witness for C3 amended at level `high` and status `suspicious`. -/
theorem frontends_render_agree_amended_witness :
    SentinelApp.evidenceBadgeCss "suspicious" = AnalysisPage.evidenceBadgeCss "suspicious"
    ∧ SentinelApp.getRiskPercentage "high" = AnalysisPage.getRiskPercentage "high" :=
  ⟨(frontends_render_agree_amended "high" "suspicious").2.2.2 (Or.inr (Or.inl rfl)),
   (frontends_render_agree_amended "high" "suspicious").2.1⟩

/-- C5: the rendering percentage strictly preserves the risk-level order:
whenever one level ranks strictly below another in the order low < medium <
high < critical, both frontends give it a strictly smaller indicator
percentage. -/
theorem getRiskPercentage_strictMono :
    ∀ (a b : String) (ra rb pa pb : Nat),
      riskRank a = some ra → riskRank b = some rb → ra < rb →
      SentinelApp.getRiskPercentage a = JsOut.num pa →
      SentinelApp.getRiskPercentage b = JsOut.num pb →
      pa < pb
      ∧ AnalysisPage.getRiskPercentage a = JsOut.num pa
      ∧ AnalysisPage.getRiskPercentage b = JsOut.num pb := by
  intro a b ra rb pa pb ha hb hlt hpa hpb
  unfold riskRank at ha hb
  split_ifs at ha hb <;>
    simp_all [SentinelApp.getRiskPercentage, AnalysisPage.getRiskPercentage] <;>
    omega

/-- Witness for C5 at the extreme levels low and critical. -/
theorem getRiskPercentage_strictMono_witness :
    25 < 100
    ∧ AnalysisPage.getRiskPercentage "low" = JsOut.num 25
    ∧ AnalysisPage.getRiskPercentage "critical" = JsOut.num 100 :=
  getRiskPercentage_strictMono "low" "critical" 0 3 25 100
    (by decide) (by decide) (by decide) (by decide) (by decide)

/-- C6: aggregating an empty evidence list gives risk level medium with
confidence 0 and exactly the one no-signal uncertainty note, and in
particular never the default low. -/
theorem aggregate_empty_verdict :
    (Aggregate []).riskLevel = RiskLevel.medium
    ∧ (Aggregate []).confidence = 0
    ∧ (Aggregate []).uncertainties = [noSignalNote]
    ∧ (Aggregate []).uncertainties.length = 1
    ∧ (Aggregate []).riskLevel ≠ RiskLevel.low :=
  ⟨rfl, rfl, rfl, rfl, by decide⟩

/-- C4: for every request-level failure (rejection or non-ok response), the
message the user sees is the fixed generic text — `Analysis failed. Please
try again.` for text analysis and `Image analysis failed. Please try
again.` for image uploads — in both frontends, independent of the internal
error detail, so no internal detail, source identity or credential can
appear in it. -/
theorem requestFailure_generic_message :
    ∀ (value : String) (o : FetchOutcome) (st : AnalysisPage.PageState),
      jsTrim value ≠ "" → jsTrim st.input ≠ "" → o.isFailure →
      (SentinelApp.handleAnalyze value o).1
          = SentinelApp.UiAction.alerted "Analysis failed. Please try again."
      ∧ SentinelApp.handleImageUpload o
          = SentinelApp.UiAction.alerted "Image analysis failed. Please try again."
      ∧ (AnalysisPage.handleAnalyze st o).1.error
          = some "Analysis failed. Please try again."
      ∧ (AnalysisPage.handleImageUpload st o).error
          = some "Image analysis failed. Please try again." := by
  intro value o st hv hst hf
  cases o with
  | rejected d =>
    refine ⟨?_, rfl, ?_, rfl⟩
    · simp [SentinelApp.handleAnalyze, SentinelApp.analyzeInput, hv]
    · simp [AnalysisPage.handleAnalyze, hst]
  | response ok errField body =>
    simp only [FetchOutcome.isFailure] at hf
    subst hf
    refine ⟨?_, rfl, ?_, rfl⟩
    · simp [SentinelApp.handleAnalyze, SentinelApp.analyzeInput, hv]
    · simp [AnalysisPage.handleAnalyze, hst]

/-- Witness for C4: a rejected request whose internal detail names a
credential still surfaces only the generic text. -/
theorem requestFailure_generic_message_witness :
    (SentinelApp.handleAnalyze "http://x.test"
        (.rejected "ECONNREFUSED key=sk-secret-12345")).1
      = SentinelApp.UiAction.alerted "Analysis failed. Please try again." :=
  (requestFailure_generic_message "http://x.test"
    (.rejected "ECONNREFUSED key=sk-secret-12345")
    { input := "http://x.test", loading := false, result := none, error := none }
    (by decide) (by decide) trivial).1

/-- C8: on input that trims to the empty string, neither frontend issues the
network request; the vanilla frontend only pops the prompt message, and the
React page's state is unchanged except that `error` becomes the prompt
message. -/
theorem blankInput_no_request :
    ∀ (value : String) (o : FetchOutcome) (st : AnalysisPage.PageState),
      jsTrim value = "" → jsTrim st.input = "" →
      SentinelApp.handleAnalyze value o =
        (SentinelApp.UiAction.alerted "Please enter a URL, message, or phone number", false)
      ∧ AnalysisPage.handleAnalyze st o =
          ({ st with error := some "Please enter a URL, message, or phone number" }, false) := by
  intro value o st hv hst
  constructor
  · simp [SentinelApp.handleAnalyze, hv]
  · simp [AnalysisPage.handleAnalyze, hst]

/-- Witness for C8 at a whitespace-only input. -/
theorem blankInput_no_request_witness :
    SentinelApp.handleAnalyze "   " (.rejected "unreachable") =
      (SentinelApp.UiAction.alerted "Please enter a URL, message, or phone number", false) :=
  (blankInput_no_request "   " (.rejected "unreachable")
    { input := " ", loading := false, result := none, error := none }
    (by decide) (by decide)).1

/-- C9 counterexample: the helpers do not fall back for every string
outside the four levels.  At `toString` — an inherited `Object.prototype`
member name — the object-literal lookup finds the inherited function, which
is truthy, so in both frontends `formatRiskLevel` does not return the input
unchanged, `getRiskPercentage` does not return 50, and `getRiskDescription`
does not return the in-progress sentence. -/
theorem riskHelpers_prototype_counterexample :
    SentinelApp.formatRiskLevel "toString" = JsOut.protoMember "toString"
    ∧ SentinelApp.formatRiskLevel "toString" ≠ JsOut.str "toString"
    ∧ SentinelApp.getRiskPercentage "toString" ≠ JsOut.num 50
    ∧ SentinelApp.getRiskDescription "toString" ≠ JsOut.str "Risk assessment in progress."
    ∧ AnalysisPage.formatRiskLevel "toString" ≠ JsOut.str "toString"
    ∧ AnalysisPage.getRiskPercentage "toString" ≠ JsOut.num 50
    ∧ AnalysisPage.getRiskDescription "toString" ≠ JsOut.str "Risk assessment in progress." := by
  decide

/-- C9 amended: the three risk rendering helpers never throw; for any level
string outside the four known levels that does not name an inherited
`Object.prototype` member, `formatRiskLevel` returns the input unchanged,
`getRiskPercentage` returns 50 and `getRiskDescription` returns the
in-progress sentence, in both frontends; at an inherited-member name the
lookup instead returns that inherited member. -/
theorem riskHelpers_fallback_amended :
    ∀ level : String,
      level ≠ "low" → level ≠ "medium" → level ≠ "high" → level ≠ "critical" →
      (level ∉ objectProtoKeys →
        SentinelApp.formatRiskLevel level = .str level
        ∧ SentinelApp.getRiskPercentage level = .num 50
        ∧ SentinelApp.getRiskDescription level = .str "Risk assessment in progress."
        ∧ AnalysisPage.formatRiskLevel level = .str level
        ∧ AnalysisPage.getRiskPercentage level = .num 50
        ∧ AnalysisPage.getRiskDescription level = .str "Risk assessment in progress.")
      ∧ (level ∈ objectProtoKeys →
        SentinelApp.formatRiskLevel level = .protoMember level
        ∧ SentinelApp.getRiskPercentage level = .protoMember level
        ∧ SentinelApp.getRiskDescription level = .protoMember level
        ∧ AnalysisPage.formatRiskLevel level = .protoMember level
        ∧ AnalysisPage.getRiskPercentage level = .protoMember level
        ∧ AnalysisPage.getRiskDescription level = .protoMember level) := by
  intro level h1 h2 h3 h4
  constructor
  · intro hnp
    simp [SentinelApp.formatRiskLevel, SentinelApp.getRiskPercentage,
          SentinelApp.getRiskDescription, AnalysisPage.formatRiskLevel,
          AnalysisPage.getRiskPercentage, AnalysisPage.getRiskDescription,
          h1, h2, h3, h4, hnp]
  · intro hp
    simp [SentinelApp.formatRiskLevel, SentinelApp.getRiskPercentage,
          SentinelApp.getRiskDescription, AnalysisPage.formatRiskLevel,
          AnalysisPage.getRiskPercentage, AnalysisPage.getRiskDescription,
          h1, h2, h3, h4, hp]

/-- Witness for C9 amended: the fallback fires at `unknown`, and the
inherited member is returned at `toLocaleString`. -/
theorem riskHelpers_fallback_amended_witness :
    SentinelApp.getRiskPercentage "unknown" = JsOut.num 50
    ∧ SentinelApp.getRiskPercentage "toLocaleString" = JsOut.protoMember "toLocaleString" :=
  ⟨((riskHelpers_fallback_amended "unknown"
      (by decide) (by decide) (by decide) (by decide)).1 (by decide)).2.1,
   ((riskHelpers_fallback_amended "toLocaleString"
      (by decide) (by decide) (by decide) (by decide)).2 (by decide)).2.1⟩

/-- Iterating `handleNext` keeps the question index inside the bounds of a
non-empty question list. -/
lemma eduNext_iter_lt (k : Nat) :
    ∀ st : EducationPage.EduState, 0 < st.questions.length →
      st.currentIndex < st.questions.length →
      ((EducationPage.handleNext)^[k] st).currentIndex < st.questions.length := by
  induction k with
  | zero => intro st _ h; simpa using h
  | succ n ih =>
    intro st hpos h
    rw [Function.iterate_succ_apply]
    exact ih (EducationPage.handleNext st) hpos (Nat.mod_lt _ hpos)

/-- C10: with a non-empty question list, `handleNext` advances the index to
(i + 1) mod the number of questions, any number of clicks keeps an in-bounds
index in bounds, and the click on the last question wraps back to index
0. -/
theorem eduNext_index_cycles :
    ∀ (st : EducationPage.EduState) (k : Nat),
      0 < st.questions.length →
      (EducationPage.handleNext st).currentIndex = (st.currentIndex + 1) % st.questions.length
      ∧ (st.currentIndex < st.questions.length →
          ((EducationPage.handleNext)^[k] st).currentIndex < st.questions.length)
      ∧ (st.currentIndex = st.questions.length - 1 →
          (EducationPage.handleNext st).currentIndex = 0) := by
  intro st k hpos
  refine ⟨rfl, fun h => eduNext_iter_lt k st hpos h, fun h => ?_⟩
  show (st.currentIndex + 1) % st.questions.length = 0
  rw [h, Nat.sub_add_cancel hpos, Nat.mod_self]

/-- A concrete Education page state on the last of three questions. -/
def eduDemoState : EducationPage.EduState :=
  { questions := ["q1", "q2", "q3"], currentIndex := 2, answer := "", feedback := none }

/-- Witness for C10: from the last of three questions one click wraps to 0,
and seven clicks from the start stay in bounds. -/
theorem eduNext_index_cycles_witness :
    (EducationPage.handleNext eduDemoState).currentIndex = 0
    ∧ ((EducationPage.handleNext)^[7] eduDemoState).currentIndex
        < eduDemoState.questions.length :=
  ⟨(eduNext_index_cycles eduDemoState 7 (by decide)).2.2 (by decide),
   (eduNext_index_cycles eduDemoState 7 (by decide)).2.1 (by decide)⟩

/-- A store in which every recorded session respects the history bound. -/
def StoreBounded (store : ConversationStore) : Prop :=
  ∀ p ∈ store, p.2.history.length ≤ maxHistory

/-- Trimming always leaves at most `maxHistory` entries. -/
lemma trimHistory_length_le (h : List Exchange) :
    (trimHistory h).length ≤ maxHistory := by
  simp only [trimHistory, List.length_drop]
  omega

/-- One `Upsert` call keeps every session within the history bound. -/
lemma upsert_preserves_bounded (store : ConversationStore) (identity : String)
    (ex : Exchange) (now : Nat) (language : String) :
    StoreBounded store → StoreBounded (Upsert store identity ex now language) := by
  intro hb p hp
  unfold Upsert at hp
  split at hp
  · rcases List.mem_cons.mp hp with hnew | hmem
    · subst hnew
      simp [maxHistory]
    · exact hb p hmem
  · rcases List.mem_map.mp hp with ⟨q, hq, rfl⟩
    by_cases hq1 : q.1 = identity
    · simpa [hq1] using trimHistory_length_le (q.2.history ++ [ex])
    · simpa [hq1] using hb q hq

/-- Any sequence of `Upsert` calls keeps every session within the history
bound. -/
lemma applyOps_bounded (ops : List UpsertOp) :
    ∀ store : ConversationStore, StoreBounded store → StoreBounded (applyOps store ops) := by
  induction ops with
  | nil => intro store h; exact h
  | cons op rest ih =>
    intro store h
    exact ih _ (upsert_preserves_bounded store op.identity op.exchange op.now op.language h)

/-- C7: after any sequence of `Upsert` calls starting from the empty store,
the history recorded for any identity holds at most 5 exchanges, and when a
full history receives one more exchange the oldest entry is the one dropped
(FIFO eviction). -/
theorem conversation_history_bounded_fifo :
    ∀ (ops : List UpsertOp) (identity : String),
      (historyAfter ops identity).length ≤ maxHistory
      ∧ ∀ (h : List Exchange) (ex : Exchange),
          h.length = maxHistory → trimHistory (h ++ [ex]) = h.tail ++ [ex] := by
  intro ops identity
  constructor
  · unfold historyAfter
    cases hl : lookupSession (applyOps [] ops) identity with
    | none => simp
    | some sess =>
      have hb : StoreBounded (applyOps [] ops) :=
        applyOps_bounded ops [] (by intro p hp; cases hp)
      unfold lookupSession at hl
      cases hf : (applyOps [] ops).find? (fun p => p.1 = identity) with
      | none => rw [hf] at hl; cases hl
      | some p =>
        rw [hf] at hl
        have hmem : p ∈ applyOps [] ops := List.mem_of_find?_eq_some hf
        have : p.2 = sess := by injection hl
        simpa [this] using hb p hmem
  · intro h ex hlen
    cases h with
    | nil => exact absurd hlen (by decide)
    | cons a t =>
      unfold trimHistory
      have hlen1 : (a :: t ++ [ex]).length - maxHistory = 1 := by
        simp only [List.length_cons, List.length_append, List.length_nil,
          maxHistory] at hlen ⊢
        omega
      rw [hlen1]
      simp

/-- A sequence of six `Upsert` calls for one identity. -/
def demoOps : List UpsertOp :=
  [{ identity := "a", exchange := { utterance := "u1", reply := "r1" }, now := 1, language := "en" },
   { identity := "a", exchange := { utterance := "u2", reply := "r2" }, now := 2, language := "en" },
   { identity := "a", exchange := { utterance := "u3", reply := "r3" }, now := 3, language := "en" },
   { identity := "a", exchange := { utterance := "u4", reply := "r4" }, now := 4, language := "en" },
   { identity := "a", exchange := { utterance := "u5", reply := "r5" }, now := 5, language := "en" },
   { identity := "a", exchange := { utterance := "u6", reply := "r6" }, now := 6, language := "en" }]

/-- A full five-exchange history. -/
def demoFullHistory : List Exchange :=
  [{ utterance := "u1", reply := "r1" }, { utterance := "u2", reply := "r2" },
   { utterance := "u3", reply := "r3" }, { utterance := "u4", reply := "r4" },
   { utterance := "u5", reply := "r5" }]

/-- Witness for C7: six upserts for one identity leave at most five
exchanges, and the sixth exchange evicts the oldest entry of a full
history. -/
theorem conversation_history_bounded_fifo_witness :
    (historyAfter demoOps "a").length ≤ maxHistory
    ∧ trimHistory (demoFullHistory ++ [{ utterance := "u6", reply := "r6" }])
        = demoFullHistory.tail ++ [{ utterance := "u6", reply := "r6" }] :=
  ⟨(conversation_history_bounded_fifo demoOps "a").1,
   (conversation_history_bounded_fifo demoOps "a").2 demoFullHistory
     { utterance := "u6", reply := "r6" } (by decide)⟩
